import Mathlib

/-!
Verification of the Zumo robot finite-state-machine controller
(`FiniteStateMachine` sketch, the unnamed main source file).

The embedding below is a shallow translation of that C++ source:
machine-level details (pins, serial printing, the blocking `delay` calls)
are dropped, while every decision that touches the state machine —
the event/state enums, `updateState`, the per-state behavior functions,
the idle timer, `initialize` and the main `loop` — is translated
statement by statement.  Sensor reads are modelled by a per-cycle
`Snapshot` holding the values the corresponding `...Update()` calls
would return in that cycle; motor commands are accumulated as the list
of `setSpeeds` pairs issued during one behavior run, and the range
sensors polled during the run are recorded in order.
-/

namespace Zumo

/-- `#define SONAR_THRESHOLD 30` — closeness threshold for the sonars (cm). -/
def SONAR_THRESHOLD : Int := 30

/-- `#define NUM_SENSORS 4` — number of reflectance sensors in the array. -/
def NUM_SENSORS : Nat := 4

/-- `#define QTRTHRESHOLD 300` — reflectance threshold: a lower reading means
a lighter (off-surface) reading. -/
def QTRTHRESHOLD : Nat := 300

/-- `#define REVERSE_SPEED 400`. -/
def REVERSE_SPEED : Int := 400

/-- `#define TURN_SPEED 300`. -/
def TURN_SPEED : Int := 300

/-- `#define FORWARD_SPEED 400`. -/
def FORWARD_SPEED : Int := 400

/-- `#define SEARCH_SPEED 200`. -/
def SEARCH_SPEED : Int := 200

/-- `enum States { Start, Idle, Search, Chase, BackUp, TurnLeft, TurnRight }`. -/
inductive States where
  | Start
  | Idle
  | Search
  | Chase
  | BackUp
  | TurnLeft
  | TurnRight
  deriving DecidableEq

/-- `enum Events { None, OnButtonPress, On5SecondsPassed, OnFind, OnEdge,
OnSafe, OnLost, OnLeft, OnRight }`. -/
inductive Events where
  | None
  | OnButtonPress
  | On5SecondsPassed
  | OnFind
  | OnEdge
  | OnSafe
  | OnLost
  | OnLeft
  | OnRight
  deriving DecidableEq

/-- The three ultrasonic range channels (`sonar`, `sonarLeft`, `sonarRight`). -/
inductive Chan where
  | Front
  | Left
  | Right
  deriving DecidableEq

/-- The values the sensor update functions return during one control cycle:
`buttonUpdate()` (debounced press), the reflectance array `sensorValues`
read by `QTRUpdate()`, and the three sonar readings produced by
`sonarUpdate()`, `sonarUpdateLeft()`, `sonarUpdateRight()` (an `int`
number of centimeters, `0` when no echo returned). -/
structure Snapshot where
  btnPress : Bool
  sensorValues : List Nat
  pingRead : Int
  pingReadLeft : Int
  pingReadRight : Int
  deriving DecidableEq

/-- `QTRUpdate()`: reads the reflectance array and returns the index of the
first sensor whose reading is below `QTRTHRESHOLD`, or `-1` when every
reading is at or above the threshold. -/
def QTRUpdate (sensorValues : List Nat) : Int :=
  match sensorValues.findIdx? (fun v => decide (v < QTRTHRESHOLD)) with
  | some i => (i : Int)
  | none => -1

/-- `void updateState(void)`: the event-driven transition switch, translated
branch by branch (the `OnFind` and `OnEdge` cases are sequences of
independent `if` statements in the source, kept as such here). -/
def updateState (zumoEvent : Events) (zumoState : States) : States :=
  match zumoEvent with
  | Events.None => zumoState
  | Events.OnButtonPress =>
      if zumoState = States.Start then States.Idle else zumoState
  | Events.On5SecondsPassed =>
      if zumoState = States.Idle then States.Search else zumoState
  | Events.OnFind =>
      let s1 := if zumoState = States.Search then States.Chase else zumoState
      let s2 := if s1 = States.TurnLeft then States.Chase else s1
      if s2 = States.TurnRight then States.Chase else s2
  | Events.OnEdge =>
      let s1 := if zumoState = States.Search then States.BackUp else zumoState
      let s2 := if s1 = States.Chase then States.BackUp else s1
      let s3 := if s2 = States.TurnLeft then States.BackUp else s2
      if s3 = States.TurnRight then States.BackUp else s3
  | Events.OnSafe =>
      if zumoState = States.BackUp then States.Search else zumoState
  | Events.OnLost =>
      if zumoState = States.Chase then States.Search else zumoState
  | Events.OnLeft =>
      if zumoState = States.Search then States.TurnLeft else zumoState
  | Events.OnRight =>
      if zumoState = States.Search then States.TurnRight else zumoState

/-- The transition table of the specification (§4.3), written from the
spec's words: listed pairs map to their next state, everything else is
absent.  Used only to compare `updateState` against the spec. -/
def specTable (s : States) (e : Events) : Option States :=
  match s, e with
  | States.Start, Events.OnButtonPress => some States.Idle
  | States.Idle, Events.On5SecondsPassed => some States.Search
  | States.Search, Events.OnFind => some States.Chase
  | States.Search, Events.OnLeft => some States.TurnLeft
  | States.Search, Events.OnRight => some States.TurnRight
  | States.Search, Events.OnEdge => some States.BackUp
  | States.Chase, Events.OnEdge => some States.BackUp
  | States.Chase, Events.OnLost => some States.Search
  | States.TurnLeft, Events.OnFind => some States.Chase
  | States.TurnLeft, Events.OnEdge => some States.BackUp
  | States.TurnRight, Events.OnFind => some States.Chase
  | States.TurnRight, Events.OnEdge => some States.BackUp
  | States.BackUp, Events.OnSafe => some States.Search
  | _, _ => none

/-- Result of running one behavior function once: the value assigned to
`zumoEvent` (if any assignment was executed), the motor `setSpeeds`
commands issued, in order, and the range channels polled, in order. -/
structure ActResult where
  event : Option Events
  cmds : List (Int × Int)
  sonarPolls : List Chan
  deriving DecidableEq

/-- `void start(void)`: fires `OnButtonPress` on a debounced press.
No motor output and no range polling. -/
def start (snap : Snapshot) : ActResult :=
  if snap.btnPress then
    { event := some Events.OnButtonPress, cmds := [], sonarPolls := [] }
  else
    { event := none, cmds := [], sonarPolls := [] }

/-- `void search(void)`: edge check first (return immediately on edge), then
the asymmetric sweep speeds, then the three sonars are read and checked
front, left, right in that order. -/
def search (snap : Snapshot) : ActResult :=
  if QTRUpdate snap.sensorValues > -1 then
    { event := some Events.OnEdge, cmds := [], sonarPolls := [] }
  else
    let sweep : List (Int × Int) := [(SEARCH_SPEED / 2, SEARCH_SPEED)]
    let polls : List Chan := [Chan.Front, Chan.Left, Chan.Right]
    if snap.pingRead < SONAR_THRESHOLD ∧ snap.pingRead > 0 then
      { event := some Events.OnFind, cmds := sweep ++ [(0, 0)], sonarPolls := polls }
    else if snap.pingReadLeft < SONAR_THRESHOLD ∧ snap.pingReadLeft > 0 then
      { event := some Events.OnLeft, cmds := sweep, sonarPolls := polls }
    else if snap.pingReadRight < SONAR_THRESHOLD ∧ snap.pingReadRight > 0 then
      { event := some Events.OnRight, cmds := sweep, sonarPolls := polls }
    else
      { event := none, cmds := sweep, sonarPolls := polls }

/-- `void chase(void)`: drives straight, then checks the edge sensors. -/
def chase (snap : Snapshot) : ActResult :=
  let fwd : List (Int × Int) := [(FORWARD_SPEED, FORWARD_SPEED)]
  if QTRUpdate snap.sensorValues > -1 then
    { event := some Events.OnEdge, cmds := fwd, sonarPolls := [] }
  else
    { event := none, cmds := fwd, sonarPolls := [] }

/-- `void backUp(void)`: compares `sensorValues[0]` with
`sensorValues[NUM_SENSORS-1]`.  The source is two consecutive `if`
statements where the `else` attaches only to the second one, translated
exactly as written; the trailing `zumoEvent = OnSafe` is unconditional. -/
def backUp (sensorValues : List Nat) : ActResult :=
  let a := sensorValues.getD 0 0
  let b := sensorValues.getD (NUM_SENSORS - 1) 0
  let c1 : List (Int × Int) :=
    if a < b then
      [(-REVERSE_SPEED, -REVERSE_SPEED / 2), (-TURN_SPEED, TURN_SPEED)]
    else []
  let c2 : List (Int × Int) :=
    if a > b then
      [(-REVERSE_SPEED / 2, -REVERSE_SPEED), (TURN_SPEED, -TURN_SPEED)]
    else
      [(-REVERSE_SPEED, -REVERSE_SPEED), (-TURN_SPEED, TURN_SPEED)]
  { event := some Events.OnSafe, cmds := c1 ++ c2, sonarPolls := [] }

/-- The three syntactic branch bodies of `backUp`'s comparison. -/
inductive Branch where
  | ltB
  | gtB
  | eqB
  deriving DecidableEq

/-- Which of `backUp`'s three comparison branch bodies execute, in order,
for a given reflectance snapshot: the first `if` runs its body when
`sensorValues[0] < sensorValues[NUM_SENSORS-1]`; the second `if` runs the
greater-than body or, failing that, its `else` body. -/
def backUpBranches (sensorValues : List Nat) : List Branch :=
  let a := sensorValues.getD 0 0
  let b := sensorValues.getD (NUM_SENSORS - 1) 0
  (if a < b then [Branch.ltB] else []) ++
    (if a > b then [Branch.gtB] else [Branch.eqB])

/-- `void turnLeft(void)`: pivot speeds, then edge check, then the front
sonar only. -/
def turnLeft (snap : Snapshot) : ActResult :=
  let pivot : List (Int × Int) := [(-TURN_SPEED, TURN_SPEED)]
  if QTRUpdate snap.sensorValues > -1 then
    { event := some Events.OnEdge, cmds := pivot, sonarPolls := [] }
  else if snap.pingRead < SONAR_THRESHOLD ∧ snap.pingRead > 0 then
    { event := some Events.OnFind, cmds := pivot ++ [(0, 0)], sonarPolls := [Chan.Front] }
  else
    { event := none, cmds := pivot, sonarPolls := [Chan.Front] }

/-- `void turnRight(void)`: mirror image of `turnLeft`. -/
def turnRight (snap : Snapshot) : ActResult :=
  let pivot : List (Int × Int) := [(TURN_SPEED, -TURN_SPEED)]
  if QTRUpdate snap.sensorValues > -1 then
    { event := some Events.OnEdge, cmds := pivot, sonarPolls := [] }
  else if snap.pingRead < SONAR_THRESHOLD ∧ snap.pingRead > 0 then
    { event := some Events.OnFind, cmds := pivot ++ [(0, 0)], sonarPolls := [Chan.Front] }
  else
    { event := none, cmds := pivot, sonarPolls := [Chan.Front] }

/-- The idle-timer globals: `bool startIdleTimer`, `bool stopIdleTimer`
(both `false` at boot) and `unsigned long long int idleTimer`. -/
structure IdleSt where
  startIdleTimer : Bool
  stopIdleTimer : Bool
  idleTimer : Nat
  deriving DecidableEq

/-- `bool updateIdle(void)`: returns `true` (and latches `stopIdleTimer`)
exactly when `startIdleTimer && millis() >= idleTimer + 5000 &&
!stopIdleTimer`; `now` stands for the `millis()` reading. -/
def updateIdle (now : Nat) (st : IdleSt) : Bool × IdleSt :=
  if st.startIdleTimer = true ∧ st.idleTimer + 5000 ≤ now ∧ st.stopIdleTimer = false then
    (true, { st with stopIdleTimer := true })
  else
    (false, st)

/-- `void idle(void)`: on the first cycle (both flags clear) records the
entry time and arms the timer; then fires `On5SecondsPassed` when
`updateIdle()` reports expiry. -/
def idle (now : Nat) (st : IdleSt) : Option Events × IdleSt :=
  let st1 :=
    if st.stopIdleTimer = false ∧ st.startIdleTimer = false then
      { st with idleTimer := now, startIdleTimer := true }
    else st
  let r := updateIdle now st1
  (if r.1 then some Events.On5SecondsPassed else none, r.2)

/-- The idle-timer state as it stands when `Idle` is first entered: both
flags still hold their boot value `false`; `t` is whatever
`initialize()` left in `idleTimer`. -/
def freshIdle (t : Nat) : IdleSt :=
  { startIdleTimer := false, stopIdleTimer := false, idleTimer := t }

/-- Runs `idle` once per cycle over a list of `millis()` readings and
records, per cycle, the reading and whether `On5SecondsPassed` was
emitted in that cycle. -/
def idleRun : IdleSt → List Nat → List (Nat × Bool)
  | _, [] => []
  | st, t :: ts =>
      let r := idle t st
      (t, r.1.isSome) :: idleRun r.2 ts

/-- The global mutable state of the sketch that the control loop touches:
`zumoState`, `zumoEvent` and the idle-timer globals. -/
structure Sys where
  zumoState : States
  zumoEvent : Events
  idleSt : IdleSt
  deriving DecidableEq

/-- One control cycle's inputs: the `millis()` reading and the sensor
snapshot the update functions would return this cycle. -/
structure Input where
  now : Nat
  snap : Snapshot
  deriving DecidableEq

/-- `void updateEvent(void)`: the body of this function is empty in the
source — it modifies nothing. -/
def updateEvent (s : Sys) : Sys := s

/-- `void doState(void)`: dispatches on `zumoState`; the chosen behavior may
overwrite `zumoEvent` and, in `Idle`, the timer globals. -/
def doState (inp : Input) (s : Sys) : Sys :=
  match s.zumoState with
  | States.Start =>
      { s with zumoEvent := ((start inp.snap).event).getD s.zumoEvent }
  | States.Idle =>
      let r := idle inp.now s.idleSt
      { s with zumoEvent := r.1.getD s.zumoEvent, idleSt := r.2 }
  | States.Search =>
      { s with zumoEvent := ((search inp.snap).event).getD s.zumoEvent }
  | States.Chase =>
      { s with zumoEvent := ((chase inp.snap).event).getD s.zumoEvent }
  | States.BackUp =>
      { s with zumoEvent := ((backUp inp.snap.sensorValues).event).getD s.zumoEvent }
  | States.TurnLeft =>
      { s with zumoEvent := ((turnLeft inp.snap).event).getD s.zumoEvent }
  | States.TurnRight =>
      { s with zumoEvent := ((turnRight inp.snap).event).getD s.zumoEvent }

/-- `void loop(void)`: `updateEvent(); updateState(); doState();`. -/
def loopStep (inp : Input) (s : Sys) : Sys :=
  let s1 := updateEvent s
  let s2 := { s1 with zumoState := updateState s1.zumoEvent s1.zumoState }
  doState inp s2

/-- `void initialize()`: sets `zumoState = Start`, `zumoEvent = None` and
`idleTimer = millis()`; the two timer flags keep their boot value
`false`. -/
def initSys (now : Nat) : Sys :=
  { zumoState := States.Start
  , zumoEvent := Events.None
  , idleSt := freshIdle now }

/-- Iterates `loop()` over a list of per-cycle inputs. -/
def runLoop (inps : List Input) (s : Sys) : Sys :=
  inps.foldl (fun acc inp => loopStep inp acc) s

/-- C1: `updateState` implements exactly the §4.3 transition table: every
listed (state, event) pair goes to its listed next state, every absent
pair leaves the state unchanged, `None` never causes a transition, and
`initialize()` sets the state variable to `Start`. -/
theorem updateState_matches_spec_table :
    (∀ s e, updateState e s = (specTable s e).getD s)
    ∧ (∀ s, updateState Events.None s = s)
    ∧ (∀ t, (initSys t).zumoState = States.Start) := by
  refine ⟨?_, ?_, ?_⟩
  · intro s e
    cases s <;> cases e <;> rfl
  · intro s
    rfl
  · intro t
    rfl

/-- C1 witness: the theorem applied at the pair (Search, OnFind) and at a
pair absent from the table, (Chase, OnFind). -/
theorem updateState_matches_spec_table_witness :
    updateState Events.OnFind States.Search =
        (specTable States.Search Events.OnFind).getD States.Search
    ∧ updateState Events.OnFind States.Chase =
        (specTable States.Chase Events.OnFind).getD States.Chase
    ∧ (initSys 0).zumoState = States.Start :=
  ⟨updateState_matches_spec_table.1 States.Search Events.OnFind,
   updateState_matches_spec_table.1 States.Chase Events.OnFind,
   updateState_matches_spec_table.2.2 0⟩

/-- C10: the transition function is idempotent in its event — applying it
twice with the same event equals applying it once, so a stale,
un-cleared event can never cause a second transition later. -/
theorem updateState_idempotent :
    ∀ s e, updateState e (updateState e s) = updateState e s := by
  intro s e
  cases s <;> cases e <;> rfl

/-- C6: a single run of `backUp` always ends by setting the event to
`OnSafe`, whatever the reflectance readings, and the subsequent state
update sends `BackUp` back to `Search` on `OnSafe`. -/
theorem backUp_ends_onSafe :
    ∀ sensorValues : List Nat,
      (backUp sensorValues).event = some Events.OnSafe
      ∧ updateState Events.OnSafe States.BackUp = States.Search := by
  intro sensorValues
  exact ⟨rfl, rfl⟩

/-- C7 (evaluation at the failing input): with `sensorValues[0] = 0 <
sensorValues[NUM_SENSORS-1] = 1000` the less-than body runs AND the
`else` body of the second `if` runs as well — two reverse-then-pivot
sequences (four motor commands), not exactly one branch: the `else`
attaches only to the greater-than `if`. -/
theorem backUp_two_branches_on_lt :
    backUpBranches [0, 1000, 1000, 1000] = [Branch.ltB, Branch.eqB]
    ∧ (backUpBranches [0, 1000, 1000, 1000]).length = 2
    ∧ (backUp [0, 1000, 1000, 1000]).cmds =
        [(-REVERSE_SPEED, -REVERSE_SPEED / 2), (-TURN_SPEED, TURN_SPEED),
         (-REVERSE_SPEED, -REVERSE_SPEED), (-TURN_SPEED, TURN_SPEED)] := by
  refine ⟨rfl, rfl, ?_⟩
  decide

/-- Concrete snapshot: channel 0 reads 100 (edge), and all three ranges
read 10 cm (inside the find window). -/
def snapEdgeAndFind : Snapshot := ⟨false, [100, 1000, 1000, 1000], 10, 10, 10⟩

/-- Concrete snapshot: no edge, and all three ranges read 10 cm. -/
def snapAllFind : Snapshot := ⟨false, [1000, 1000, 1000, 1000], 10, 10, 10⟩

/-- Concrete snapshot: no edge, front range 10 cm, no side echo. -/
def snapFrontOnly : Snapshot := ⟨false, [1000, 1000, 1000, 1000], 10, 0, 0⟩

/-- Concrete snapshot: channel 0 reads 0 (edge), front range 10 cm. -/
def snapEdgeOnly : Snapshot := ⟨false, [0, 1000, 1000, 1000], 10, 0, 0⟩

/-- Concrete snapshot: channel 1 reads 100 (edge), all ranges 10 cm. -/
def snapEdgeCh1 : Snapshot := ⟨false, [1000, 100, 1000, 1000], 10, 10, 10⟩

/-- C2: within one `search` cycle the emitted event follows the fixed
priority edge > front find > left > right: a present edge index forces
`OnEdge`; failing that, a front range in `(0, SONAR_THRESHOLD)` forces
`OnFind`; failing that the left range is decided before the right one;
and no behavior other than `search` ever emits `OnLeft` or `OnRight`. -/
theorem search_event_priority :
    (∀ snap : Snapshot, QTRUpdate snap.sensorValues > -1 →
        (search snap).event = some Events.OnEdge)
    ∧ (∀ snap : Snapshot, ¬ QTRUpdate snap.sensorValues > -1 →
        snap.pingRead < SONAR_THRESHOLD ∧ snap.pingRead > 0 →
        (search snap).event = some Events.OnFind)
    ∧ (∀ snap : Snapshot, ¬ QTRUpdate snap.sensorValues > -1 →
        ¬ (snap.pingRead < SONAR_THRESHOLD ∧ snap.pingRead > 0) →
        snap.pingReadLeft < SONAR_THRESHOLD ∧ snap.pingReadLeft > 0 →
        (search snap).event = some Events.OnLeft)
    ∧ (∀ snap : Snapshot, ¬ QTRUpdate snap.sensorValues > -1 →
        ¬ (snap.pingRead < SONAR_THRESHOLD ∧ snap.pingRead > 0) →
        ¬ (snap.pingReadLeft < SONAR_THRESHOLD ∧ snap.pingReadLeft > 0) →
        snap.pingReadRight < SONAR_THRESHOLD ∧ snap.pingReadRight > 0 →
        (search snap).event = some Events.OnRight)
    ∧ (∀ snap : Snapshot,
        (start snap).event ≠ some Events.OnLeft
        ∧ (start snap).event ≠ some Events.OnRight
        ∧ (chase snap).event ≠ some Events.OnLeft
        ∧ (chase snap).event ≠ some Events.OnRight
        ∧ (turnLeft snap).event ≠ some Events.OnLeft
        ∧ (turnLeft snap).event ≠ some Events.OnRight
        ∧ (turnRight snap).event ≠ some Events.OnLeft
        ∧ (turnRight snap).event ≠ some Events.OnRight
        ∧ (backUp snap.sensorValues).event ≠ some Events.OnLeft
        ∧ (backUp snap.sensorValues).event ≠ some Events.OnRight)
    ∧ (∀ now st, (idle now st).1 ≠ some Events.OnLeft
        ∧ (idle now st).1 ≠ some Events.OnRight) := by
  refine ⟨?_, ?_, ?_, ?_, ?_, ?_⟩
  · intro snap h
    simp [search, h]
  · intro snap h1 h2
    simp [search, h1, h2]
  · intro snap h1 h2 h3
    simp [search, h1, h2, h3]
  · intro snap h1 h2 h3 h4
    simp [search, h1, h2, h3, h4]
  · intro snap
    refine ⟨?_, ?_, ?_, ?_, ?_, ?_, ?_, ?_, ?_, ?_⟩ <;>
      · simp only [start, chase, turnLeft, turnRight, backUp]
        first
        | (split_ifs <;> simp)
        | simp
  · intro now st
    constructor <;>
      · simp only [idle]
        split_ifs <;> simp

/-- C2 witness: with an edge index present and all three ranges inside the
find window, the emitted event is `OnEdge`; with no edge, a front range
of 10 cm forces `OnFind` even though the left range also qualifies. -/
theorem search_event_priority_witness :
    (search snapEdgeAndFind).event = some Events.OnEdge
    ∧ (search snapAllFind).event = some Events.OnFind :=
  ⟨search_event_priority.1 _ (by decide),
   search_event_priority.2.1 _ (by decide) (by decide)⟩

/-- C5: `OnFind`, `OnLeft`, `OnRight` are only ever emitted when the
corresponding range reading is strictly positive and strictly below
`SONAR_THRESHOLD`; in particular a zero (no-echo) reading never
produces them, in `search`, `turnLeft` or `turnRight`. -/
theorem no_event_from_zero_range :
    (∀ snap : Snapshot, (search snap).event = some Events.OnFind →
        snap.pingRead > 0 ∧ snap.pingRead < SONAR_THRESHOLD)
    ∧ (∀ snap : Snapshot, (search snap).event = some Events.OnLeft →
        snap.pingReadLeft > 0 ∧ snap.pingReadLeft < SONAR_THRESHOLD)
    ∧ (∀ snap : Snapshot, (search snap).event = some Events.OnRight →
        snap.pingReadRight > 0 ∧ snap.pingReadRight < SONAR_THRESHOLD)
    ∧ (∀ snap : Snapshot, (turnLeft snap).event = some Events.OnFind →
        snap.pingRead > 0 ∧ snap.pingRead < SONAR_THRESHOLD)
    ∧ (∀ snap : Snapshot, (turnRight snap).event = some Events.OnFind →
        snap.pingRead > 0 ∧ snap.pingRead < SONAR_THRESHOLD) := by
  refine ⟨?_, ?_, ?_, ?_, ?_⟩ <;>
    · intro snap h
      simp only [search, turnLeft, turnRight] at h
      split_ifs at h <;> simp_all

/-- C5 witness: a snapshot whose front range is 10 cm makes `search` emit
`OnFind`, and the theorem yields `0 < 10 < SONAR_THRESHOLD`. -/
theorem no_event_from_zero_range_witness :
    (10 : Int) > 0 ∧ (10 : Int) < SONAR_THRESHOLD :=
  no_event_from_zero_range.1 snapFrontOnly (by decide)

/-- C8 counterexample: with edge index 0 present, `search` emits `OnEdge`,
polls no range sensor and returns at once — but it issues NO motor
command at all: in particular no `(0, 0)` halt command, refuting "halts
the motors" (the motors simply keep their previous command). -/
theorem search_edge_no_halt_cex :
    (search snapEdgeOnly).event = some Events.OnEdge
    ∧ (search snapEdgeOnly).cmds = []
    ∧ ¬ ((0, 0) ∈ (search snapEdgeOnly).cmds) := by
  refine ⟨rfl, rfl, ?_⟩
  decide

/-- C8 (amended): whenever the edge index is present, `search` emits
`OnEdge` and returns immediately — before any range sensor is polled
and before any motor command is issued that cycle (it does not command
an explicit halt). -/
theorem search_edge_preempts (snap : Snapshot)
    (h : QTRUpdate snap.sensorValues > -1) :
    (search snap).event = some Events.OnEdge
    ∧ (search snap).cmds = []
    ∧ (search snap).sonarPolls = [] := by
  simp [search, h]

/-- C8 witness: the amended theorem applied at a snapshot whose channel 1
reflectance reading is below `QTRTHRESHOLD`. -/
theorem search_edge_preempts_witness :
    (search snapEdgeCh1).sonarPolls = [] :=
  (search_edge_preempts snapEdgeCh1 (by decide)).2.2

/-- Cycle input: a debounced button press, every other sensor quiet
(reflectance above threshold, no sonar echo), at `millis() = 0`. -/
def inpPress : Input := ⟨0, ⟨true, [1000, 1000, 1000, 1000], 0, 0, 0⟩⟩

/-- Cycle input: all sensors quiet, at `millis() = 1`. -/
def inpQuiet : Input := ⟨1, ⟨false, [1000, 1000, 1000, 1000], 0, 0, 0⟩⟩

/-- C4 (evaluation at the failing trace): after cycle 0 (button pressed in
`Start`) and cycle 1 (now in `Idle`, nothing fires, `idle` emits
nothing), the event variable still holds `OnButtonPress` at the point
where cycle 2's `updateState` would consume it, because `updateEvent`
has an empty body and nothing ever resets the event to `None`. -/
theorem stale_event_persists :
    (runLoop [inpPress] (initSys 0)).zumoEvent = Events.OnButtonPress
    ∧ (idle 1 (runLoop [inpPress] (initSys 0)).idleSt).1 = none
    ∧ (runLoop [inpPress, inpQuiet] (initSys 0)).zumoState = States.Idle
    ∧ (runLoop [inpPress, inpQuiet] (initSys 0)).zumoEvent = Events.OnButtonPress
    ∧ updateEvent (runLoop [inpPress, inpQuiet] (initSys 0)) =
        runLoop [inpPress, inpQuiet] (initSys 0) := by
  refine ⟨rfl, ?_, rfl, rfl, rfl⟩
  decide

/-- Helper: `Option.getD` cannot produce `OnLost` when neither the option
nor the default is `OnLost`. -/
theorem getD_ne_onLost (o : Option Events) (d : Events)
    (h1 : o ≠ some Events.OnLost) (h2 : d ≠ Events.OnLost) :
    o.getD d ≠ Events.OnLost := by
  cases o with
  | none => simpa using h2
  | some e => simpa using h1

/-- Helper: `start` never assigns `OnLost`. -/
theorem start_ne_onLost (snap : Snapshot) :
    (start snap).event ≠ some Events.OnLost := by
  simp only [start]
  split_ifs <;> simp

/-- Helper: `idle` never assigns `OnLost`. -/
theorem idle_ne_onLost (now : Nat) (st : IdleSt) :
    (idle now st).1 ≠ some Events.OnLost := by
  simp only [idle]
  split_ifs <;> simp

/-- Helper: `search` never assigns `OnLost`. -/
theorem search_ne_onLost (snap : Snapshot) :
    (search snap).event ≠ some Events.OnLost := by
  simp only [search]
  split_ifs <;> simp

/-- Helper: `chase` never assigns `OnLost`. -/
theorem chase_ne_onLost (snap : Snapshot) :
    (chase snap).event ≠ some Events.OnLost := by
  simp only [chase]
  split_ifs <;> simp

/-- Helper: `backUp` never assigns `OnLost`. -/
theorem backUp_ne_onLost (sv : List Nat) :
    (backUp sv).event ≠ some Events.OnLost := by
  simp [backUp]

/-- Helper: `turnLeft` never assigns `OnLost`. -/
theorem turnLeft_ne_onLost (snap : Snapshot) :
    (turnLeft snap).event ≠ some Events.OnLost := by
  simp only [turnLeft]
  split_ifs <;> simp

/-- Helper: `turnRight` never assigns `OnLost`. -/
theorem turnRight_ne_onLost (snap : Snapshot) :
    (turnRight snap).event ≠ some Events.OnLost := by
  simp only [turnRight]
  split_ifs <;> simp

/-- Helper: `doState` preserves the invariant that the event variable never
holds `OnLost`. -/
theorem doState_ne_onLost (inp : Input) (s : Sys)
    (h : s.zumoEvent ≠ Events.OnLost) :
    (doState inp s).zumoEvent ≠ Events.OnLost := by
  obtain ⟨st, ev, ist⟩ := s
  cases st with
  | Start => exact getD_ne_onLost _ _ (start_ne_onLost inp.snap) h
  | Idle => exact getD_ne_onLost _ _ (idle_ne_onLost inp.now ist) h
  | Search => exact getD_ne_onLost _ _ (search_ne_onLost inp.snap) h
  | Chase => exact getD_ne_onLost _ _ (chase_ne_onLost inp.snap) h
  | BackUp => exact getD_ne_onLost _ _ (backUp_ne_onLost inp.snap.sensorValues) h
  | TurnLeft => exact getD_ne_onLost _ _ (turnLeft_ne_onLost inp.snap) h
  | TurnRight => exact getD_ne_onLost _ _ (turnRight_ne_onLost inp.snap) h

/-- Helper: one full control cycle preserves the no-`OnLost` invariant
(`updateState` only reads the event, never writes it). -/
theorem loopStep_ne_onLost (inp : Input) (s : Sys)
    (h : s.zumoEvent ≠ Events.OnLost) :
    (loopStep inp s).zumoEvent ≠ Events.OnLost :=
  doState_ne_onLost inp _ h

/-- Helper: the no-`OnLost` invariant holds along any run of the loop. -/
theorem runLoop_ne_onLost (inps : List Input) (s : Sys)
    (h : s.zumoEvent ≠ Events.OnLost) :
    (runLoop inps s).zumoEvent ≠ Events.OnLost := by
  induction inps generalizing s with
  | nil => exact h
  | cons i is ih => exact ih _ (loopStep_ne_onLost i s h)

/-- C9: starting the closed loop from `initialize()` (state `Start`, event
`None`), the event variable never holds `OnLost` after any number of
cycles, so the table transition Chase → Search on `OnLost` never fires;
`chase` itself emits nothing or `OnEdge`, and `OnEdge` in `Chase` goes
to `BackUp` — the only sensor-driven exit from `Chase`. -/
theorem onLost_never_fires :
    (∀ t : Nat, ∀ inps : List Input,
        (runLoop inps (initSys t)).zumoEvent ≠ Events.OnLost)
    ∧ (∀ snap : Snapshot,
        (chase snap).event = none ∨ (chase snap).event = some Events.OnEdge)
    ∧ updateState Events.OnEdge States.Chase = States.BackUp := by
  refine ⟨?_, ?_, rfl⟩
  · intro t inps
    exact runLoop_ne_onLost inps (initSys t) (fun hy => Events.noConfusion hy)
  · intro snap
    simp only [chase]
    split_ifs <;> simp

/-- C9 witness: the invariant instantiated on a concrete two-cycle run. -/
theorem onLost_never_fires_witness :
    (runLoop [inpPress, inpQuiet] (initSys 0)).zumoEvent ≠ Events.OnLost :=
  onLost_never_fires.1 0 [inpPress, inpQuiet]

/-- Helper: once `stopIdleTimer` is latched, `idle` emits nothing and
leaves the timer state unchanged. -/
theorem idle_stopped (t : Nat) (st : IdleSt) (h : st.stopIdleTimer = true) :
    idle t st = (none, st) := by
  simp [idle, updateIdle, h]

/-- Helper: after the stop flag is latched, every later cycle emits
nothing. -/
theorem idleRun_stopped (st : IdleSt) (h : st.stopIdleTimer = true) :
    ∀ ts : List Nat, idleRun st ts = ts.map (fun t => (t, false)) := by
  intro ts
  induction ts with
  | nil => rfl
  | cons t ts ih => simp [idleRun, idle_stopped t st h, ih]

/-- Helper: an all-`false` trace contains no emission. -/
theorem countP_false_map (ts : List Nat) :
    ((ts.map (fun t => (t, false))).countP (fun p => p.2)) = 0 := by
  induction ts with
  | nil => rfl
  | cons t ts ih => simp [List.countP_cons, ih]

/-- Helper: from an armed, unexpired timer (`startIdleTimer` set, stop flag
clear, deadline base `d`), the idle loop emits at most once, never
before `d + 5000`, and exactly once precisely when some reading reaches
`d + 5000`. -/
theorem idleRun_armed (d : Nat) :
    ∀ ts : List Nat,
      ((idleRun ⟨true, false, d⟩ ts).countP (fun p => p.2) ≤ 1)
      ∧ (∀ p ∈ idleRun ⟨true, false, d⟩ ts, p.2 = true → d + 5000 ≤ p.1)
      ∧ ((idleRun ⟨true, false, d⟩ ts).countP (fun p => p.2) = 1 ↔
          ∃ t ∈ ts, d + 5000 ≤ t) := by
  intro ts
  induction ts with
  | nil => simp [idleRun]
  | cons t ts ih =>
      by_cases hd : d + 5000 ≤ t
      · have hidle : idle t ⟨true, false, d⟩ =
            (some Events.On5SecondsPassed, ⟨true, true, d⟩) := by
          simp [idle, updateIdle, hd]
        have hrest : idleRun (⟨true, true, d⟩ : IdleSt) ts =
            ts.map (fun t => (t, false)) := idleRun_stopped _ rfl ts
        refine ⟨?_, ?_, ?_⟩
        · simp [idleRun, hidle, hrest, List.countP_cons, countP_false_map]
        · intro p hp hpt
          simp only [idleRun, hidle, hrest] at hp
          rcases List.mem_cons.mp hp with h1 | h1
          · subst h1
            exact hd
          · rcases List.mem_map.mp h1 with ⟨x, _, hx⟩
            rw [← hx] at hpt
            cases hpt
        · constructor
          · intro _
            exact ⟨t, List.mem_cons_self t ts, hd⟩
          · intro _
            simp [idleRun, hidle, hrest, List.countP_cons, countP_false_map]
      · have hidle : idle t ⟨true, false, d⟩ = (none, ⟨true, false, d⟩) := by
          simp [idle, updateIdle, hd]
        refine ⟨?_, ?_, ?_⟩
        · simpa [idleRun, hidle, List.countP_cons] using ih.1
        · intro p hp hpt
          simp only [idleRun, hidle] at hp
          rcases List.mem_cons.mp hp with h1 | h1
          · subst h1
            cases hpt
          · exact ih.2.1 p h1 hpt
        · rw [show idleRun (⟨true, false, d⟩ : IdleSt) (t :: ts) =
              (t, false) :: idleRun ⟨true, false, d⟩ ts by simp [idleRun, hidle]]
          rw [List.countP_cons]
          simp only [Bool.false_eq_true, if_false, Nat.add_zero]
          rw [ih.2.2]
          constructor
          · intro ⟨x, hx, hxd⟩
            exact ⟨x, List.mem_cons_of_mem t hx, hxd⟩
          · intro ⟨x, hx, hxd⟩
            rcases List.mem_cons.mp hx with h1 | h1
            · subst h1
              exact absurd hxd hd
            · exact ⟨x, h1, hxd⟩

/-- C3: one entry into `Idle` (timer flags at their boot value, first cycle
at `millis() = t0`) emits `On5SecondsPassed` at most once, never at a
reading below `t0 + 5000`, and exactly once just when some later
reading reaches `t0 + 5000`; and `updateIdle` is one-shot — once it has
returned `true` the latched `stopIdleTimer` makes every later call
return `false` and leave the flags unchanged (nothing in the program
re-arms them). -/
theorem idle_on5s_exactly_once (tb t0 : Nat) (ts : List Nat) :
    ((idleRun (freshIdle tb) (t0 :: ts)).countP (fun p => p.2) ≤ 1)
    ∧ (∀ p ∈ idleRun (freshIdle tb) (t0 :: ts), p.2 = true → t0 + 5000 ≤ p.1)
    ∧ ((idleRun (freshIdle tb) (t0 :: ts)).countP (fun p => p.2) = 1 ↔
        ∃ t ∈ ts, t0 + 5000 ≤ t)
    ∧ (∀ now st, st.stopIdleTimer = true → updateIdle now st = (false, st))
    ∧ (∀ now st, (updateIdle now st).1 = true →
        ((updateIdle now st).2).stopIdleTimer = true) := by
  have hle : ¬ (t0 + 5000 ≤ t0) := by omega
  have h0 : idle t0 (freshIdle tb) = (none, ⟨true, false, t0⟩) := by
    simp [idle, updateIdle, freshIdle, hle]
  have hrun : idleRun (freshIdle tb) (t0 :: ts) =
      (t0, false) :: idleRun ⟨true, false, t0⟩ ts := by
    simp [idleRun, h0]
  refine ⟨?_, ?_, ?_, ?_, ?_⟩
  · rw [hrun, List.countP_cons]
    simpa using (idleRun_armed t0 ts).1
  · intro p hp hpt
    rw [hrun] at hp
    rcases List.mem_cons.mp hp with h1 | h1
    · subst h1
      cases hpt
    · exact (idleRun_armed t0 ts).2.1 p h1 hpt
  · rw [hrun, List.countP_cons]
    simpa using (idleRun_armed t0 ts).2.2
  · intro now st h
    simp [updateIdle, h]
  · intro now st h
    by_cases hc : st.startIdleTimer = true ∧ st.idleTimer + 5000 ≤ now ∧
        st.stopIdleTimer = false
    · simp [updateIdle, hc]
    · simp [updateIdle, hc] at h

/-- C3 witness: entering `Idle` at `millis() = 0` with later readings 1000
and 7000, the event fires exactly once (at the 7000 ms reading). -/
theorem idle_on5s_exactly_once_witness :
    (idleRun (freshIdle 0) [0, 1000, 7000]).countP (fun p => p.2) = 1 :=
  (idle_on5s_exactly_once 0 0 [1000, 7000]).2.2.1.mpr
    ⟨7000, by decide, by decide⟩

end Zumo
